import Mathlib

/-!
Shallow embedding of `infra/deploy_azure_resources.py`, an interactive Azure
deployment script.  External effects (shell commands, operator prompts,
temporary files, `json.loads`) are modelled by explicit environment records.
The observable behaviour of each routine is a list of events together with a
result; `Except.error c` stands for process termination with exit status `c`
(`sys.exit(c)`, or death by unhandled exception).
-/

/-- Outcome of one shell command in the outside world: its exit code and the
captured output streams (`subprocess.run` with `text=True`). -/
structure CmdResult where
  exitCode : Nat
  stdout : String
  stderr : String
deriving DecidableEq

/-- Observable effects of a run.  `cmd` records a shell command line passed to
`subprocess.run`; `print` a message written to stdout/stderr; `write` and
`unlink` record creation and deletion of a file at a path (file contents are
modelled separately where a claim needs them); `exited` is process
termination. -/
inductive Event where
  | cmd (s : String)
  | print (s : String)
  | write (path : String)
  | unlink (path : String)
  | exited (code : Nat)
deriving DecidableEq

/-- A JSON value, the result type of the Python `json.loads` calls.  The
environment supplies `json.loads` as a partial function `String → Option Json`
(`none` models a raised `JSONDecodeError`). -/
inductive Json where
  | null
  | bool (b : Bool)
  | num (n : Int)
  | str (s : String)
  | arr (elems : List Json)
  | obj (fields : List (String × Json))

/-- Python truthiness of a JSON value (`if not subscription:` etc.). -/
def Json.truthy : Json → Bool
  | Json.null => false
  | Json.bool b => b
  | Json.num n => n != 0
  | Json.str s => !s.isEmpty
  | Json.arr l => !l.isEmpty
  | Json.obj l => !l.isEmpty

/-- Python `str()` of a scalar JSON value, as interpolated by f-strings.  The
script only ever interpolates scalar fields, so the container cases are
abstracted by fixed markers. -/
def Json.render : Json → String
  | Json.null => "None"
  | Json.bool true => "True"
  | Json.bool false => "False"
  | Json.num n => toString n
  | Json.str s => s
  | Json.arr _ => "[...]"
  | Json.obj _ => "\x7b...\x7d"

/-- `dict.get` on a JSON object (`None`, i.e. `none`, when absent or when the
value is not an object). -/
def Json.get : Json → String → Option Json
  | Json.obj fields, key => fields.lookup key
  | _, _ => none

/-- Python `str()` of an `Optional` JSON value (`str(None) = "None"`). -/
def py_str_opt : Option Json → String
  | none => "None"
  | some j => j.render

/-- `.get` on the flattened deployment-outputs dictionary whose values are
themselves `Optional` (each output's `value` field may be missing): a missing
key and a present-but-`None` value both read as `None`. -/
def dget (outputs : List (String × Option Json)) (key : String) : Option Json :=
  match outputs.lookup key with
  | none => none
  | some v => v

/-- A Python value placed into a dict that `json.dump` serialises: `None`
becomes JSON `null`. -/
def jopt (o : Option Json) : Json :=
  o.getD Json.null

/-- Boolean list-prefix test at character level (used to state which command
lines a trace can begin with). -/
def pfx : List Char → List Char → Bool
  | [], _ => true
  | _ :: _, [] => false
  | a :: as, b :: bs => a = b && pfx as bs

/-- Substring search, the semantics of Python's `needle in haystack`. -/
def sub_search (needle : List Char) : List Char → Bool
  | [] => pfx needle []
  | b :: bs => pfx needle (b :: bs) || sub_search needle bs

/-- Python `needle in haystack` on strings. -/
def str_contains (haystack needle : String) : Bool :=
  sub_search needle.data haystack.data

/-- Whether string `c` starts with `p` (used to recognise classes of command
lines, robust to operator-controlled suffixes). -/
def str_starts (c p : String) : Bool :=
  pfx p.data c.data

/-- Python `s.strip(CHR(34))`: remove all leading and trailing double-quote
characters. -/
def strip_quotes (s : String) : String :=
  String.mk (((s.data.dropWhile (fun c => c = Char.ofNat 34)).reverse.dropWhile
    (fun c => c = Char.ofNat 34)).reverse)

/-- Python `s.strip()`: remove leading and trailing whitespace.  (Defined at
the character-list level so that concrete runs evaluate inside the kernel.) -/
def pyStrip (s : String) : String :=
  String.mk (((s.data.dropWhile Char.isWhitespace).reverse.dropWhile
    Char.isWhitespace).reverse)

/-- Python `s.lower()` on the ASCII strings this script handles. -/
def pyLower (s : String) : String :=
  String.mk (s.data.map Char.toLower)

/-- The separator line `"=" * 60`. -/
def sep60 : String :=
  String.mk (List.replicate 60 (Char.ofNat 61))

/-- A single-quote character as a string (kept out of string literals). -/
def apos : String := String.singleton (Char.ofNat 39)

/-- Wrap a string in double quotes, as the f-string command templates do. -/
def quoted (s : String) : String := "\"" ++ s ++ "\""

/-- A sequence of print events. -/
def print_events (msgs : List String) : List Event :=
  msgs.map Event.print

/-- The command lines of a trace, in order. -/
def cmds (t : List Event) : List String :=
  t.filterMap (fun e => match e with | Event.cmd c => some c | _ => none)

/-- Echo of captured output when `run_command` is called with
`capture_output=False` (the script prints the captured streams itself). -/
def echo_events (capture_output : Bool) (res : CmdResult) : List Event :=
  if capture_output then []
  else (if res.stdout ≠ "" then [Event.print res.stdout] else [])
    ++ (if res.stderr ≠ "" then [Event.print res.stderr] else [])

/-- Diagnostics printed by `run_command` when `subprocess.run` raises
`CalledProcessError` (lines 38-42 of the source). -/
def error_events (command : String) (res : CmdResult) : List Event :=
  [Event.print ("Error executing command: " ++ command)]
    ++ (if res.stderr ≠ "" then [Event.print ("Error: " ++ res.stderr)] else [])
    ++ (if res.stdout ≠ "" then [Event.print ("Output: " ++ res.stdout)] else [])

/-- `run_command` (source lines 19-45).  The `check` flag is forwarded to
`subprocess.run`, so `CalledProcessError` is raised exactly when `check=True`
and the exit code is non-zero; in that case the handler prints diagnostics and
calls `sys.exit(1)`.  In every other case the stripped stdout is returned —
including a non-zero exit with `check=False`, where no exception is raised, so
the `return None` at line 45 is unreachable. -/
def run_command (command : String) (capture_output : Bool) (check : Bool)
    (res : CmdResult) : List Event × Except Nat (Option String) :=
  if check = true ∧ res.exitCode ≠ 0 then
    (Event.cmd command :: error_events command res ++ [Event.exited 1], Except.error 1)
  else
    (Event.cmd command :: echo_events capture_output res, Except.ok (some (pyStrip res.stdout)))

/-- The trace and value a `check=False` call of `run_command` produces: the
call never terminates the process and always returns the stripped stdout
(`run_command_opt_spec` below proves agreement with `run_command`). -/
def run_command_opt (command : String) (capture_output : Bool)
    (res : CmdResult) : List Event × Option String :=
  (Event.cmd command :: echo_events capture_output res, some (pyStrip res.stdout))

/-- `check_az_login` (lines 48-51): runs `az account show` with `check=False`
and reports whether the result is not `None`. -/
def check_az_login (res : CmdResult) : List Event × Bool :=
  let r := run_command_opt "az account show" true res
  (r.1, r.2.isSome)

/-- `get_current_subscription` (lines 54-59): runs `az account show` with
`check=True` (so a failure exits the process inside `run_command`), parses the
output with `json.loads` when non-empty (an unhandled `JSONDecodeError` kills
the process with status 1), and returns `{}` on empty output. -/
def get_current_subscription (jl : String → Option Json) (res : CmdResult) :
    List Event × Except Nat Json :=
  match run_command "az account show" true true res with
  | (t, Except.error c) => (t, Except.error c)
  | (t, Except.ok output) =>
    if output.getD "" ≠ "" then
      match jl (output.getD "") with
      | some j => (t, Except.ok j)
      | none => (t ++ [Event.exited 1], Except.error 1)
    else (t, Except.ok (Json.obj []))

/-- The affirmative test used at both confirmation prompts:
`response.strip().lower() in ["yes", "y"]`. -/
def affirmative (s : String) : Bool :=
  pyLower (pyStrip s) == "yes" || pyLower (pyStrip s) == "y"

/-- `confirm_subscription` (lines 62-73): display the subscription, read a
reply, and report whether it is affirmative. -/
def confirm_subscription (subscription : Json) (response : String) :
    List Event × Bool :=
  (print_events [sep60, "Current Azure Subscription:", sep60,
      "Name: " ++ ((subscription.get "name").getD (Json.str "N/A")).render,
      "ID: " ++ ((subscription.get "id").getD (Json.str "N/A")).render,
      "Tenant ID: " ++ ((subscription.get "tenantId").getD (Json.str "N/A")).render,
      sep60],
    affirmative response)

/-- `get_user_input` with a default (lines 78-80): the stripped reply if
non-empty, otherwise the default.  (The no-default looping variant is never
called by `main`.) -/
def get_user_input (userReply : String) (dflt : String) : String :=
  let s := pyStrip userReply
  if s = "" then dflt else s

/-- The fixed punctuation set of `generate_secure_password` (line 91 and the
membership test at line 99). -/
def special_chars : String := "!@#$%^&*()-_=+[]\x7b\x7d|;:,.<>?"

/-- The candidate alphabet `string.ascii_letters + string.digits + special`. -/
def password_alphabet : List Char :=
  ("abcdefghijklmnopqrstuvwxyzABCDEFGHIJKLMNOPQRSTUVWXYZ"
    ++ "0123456789" ++ special_chars).data

/-- One candidate password: `length` draws from the alphabet.  The random
source `secrets.choice` is modelled by a stream `pick` of indices (reduced
into range modulo the alphabet size); draw `i` of the whole run reads
`pick i`. -/
def candidate (pick : Nat → Nat) (start length : Nat) : List Char :=
  (List.range length).map
    (fun i => password_alphabet.getD (pick (start + i) % password_alphabet.length) 'a')

/-- The complexity requirement of lines 96-99: at least one lowercase, one
uppercase, one digit, and one character of the fixed punctuation set. -/
def meets_complexity (cs : List Char) : Bool :=
  cs.any (fun c => c.isLower) && cs.any (fun c => c.isUpper)
    && cs.any (fun c => c.isDigit) && cs.any (fun c => special_chars.data.contains c)

/-- The rejection-sampling loop of `generate_secure_password` (lines 93-100),
with explicit fuel in place of `while True` (the Python loop has no bound and
may in principle run forever). -/
def gen_aux (pick : Nat → Nat) (length : Nat) : Nat → Nat → Option (List Char)
  | _, 0 => none
  | start, fuel + 1 =>
    let cs := candidate pick start length
    if meets_complexity cs then some cs else gen_aux pick length (start + length) fuel

/-- `generate_secure_password` (lines 88-100) over the modelled random
stream. -/
def generate_secure_password (pick : Nat → Nat) (length fuel : Nat) : Option String :=
  (gen_aux pick length 0 fuel).map String.mk

/-- `get_connection_string` (lines 459-461): the fixed connection-string
template. -/
def get_connection_string (server_name database_name admin_user admin_password : String) : String :=
  "Server=tcp:" ++ server_name ++ ".database.windows.net,1433;Initial Catalog="
    ++ database_name ++ ";Persist Security Info=False;User ID=" ++ admin_user
    ++ ";Password=" ++ admin_password
    ++ ";MultipleActiveResultSets=False;Encrypt=True;TrustServerCertificate=False;Connection Timeout=30;"

/-- `create_resource_group` (lines 188-198): one `az group create` call with
`check=True` (failure exits inside `run_command`); returns the truthiness of
the stripped output. -/
def create_resource_group (res : CmdResult) (resource_group location : String) :
    List Event × Except Nat Bool :=
  let t0 := print_events ["📦 Creating resource group " ++ resource_group
    ++ " in " ++ location ++ "..."]
  let command := "az group create --name " ++ resource_group ++ " --location " ++ location
  match run_command command true true res with
  | (t, Except.error c) => (t0 ++ t, Except.error c)
  | (t, Except.ok result) =>
    if result.getD "" ≠ "" then
      (t0 ++ t ++ print_events ["✅ Resource group " ++ resource_group
        ++ " created successfully."], Except.ok true)
    else (t0 ++ t, Except.ok false)

/-- The outside world of one `deploy_bicep_template` call: whether the
template file exists, the temp parameters path `tempfile` hands out, the
`json.loads` oracle, and the outcome of each CLI invocation the function can
make. -/
structure DeployEnv where
  scriptDir : String
  bicepExists : Bool
  paramFilePath : String
  jsonLoads : String → Option Json
  validate : CmdResult
  deployRun : CmdResult
  statusRun : CmdResult
  outputsRun : CmdResult
  errorRun : CmdResult
  listRun : CmdResult

/-- The status extraction of lines 260-264: `json.loads` of the query result;
a string result is stripped of surrounding double quotes (twice, by the two
assignments); a non-string result falls back to the raw query output, also
stripped; a parse error yields `"Unknown"`. -/
def provisioning_state (jl : String → Option Json) (status_result : String) : String :=
  match jl status_result with
  | none => "Unknown"
  | some (Json.str t) => strip_quotes (strip_quotes t)
  | some _ => strip_quotes status_result

/-- The error-detail messages of lines 294-301: when the error query output is
truthy and not the literal `"null"`, print the parsed details (rendered), or
the raw text if parsing fails. -/
def error_detail_msgs (jl : String → Option Json) (error_result : String) : List String :=
  if error_result ≠ "" ∧ error_result ≠ "null" then
    match jl error_result with
    | some j => ["Error details: " ++ j.render]
    | none => ["Error details: " ++ error_result]
  else []

/-- The flattening loop of lines 278-280: `value.get` of each output's
`value` field.  A non-object value raises `AttributeError`, caught by the
outer `except Exception` (line 312), which makes the whole call return
`None`. -/
def extract_output_values : List (String × Json) → Option (List (String × Option Json))
  | [] => some []
  | (key, Json.obj fields) :: rest =>
    match extract_output_values rest with
    | some r => some ((key, fields.lookup "value") :: r)
    | none => none
  | _ :: _ => none

/-- `deploy_bicep_template` (lines 201-322).  All its CLI calls use
`check=False`, so it never terminates the process; it returns the flattened
outputs map on full success and `None` on every other path.  The temporary
parameters file is written after validation succeeds and unlinked by the
`finally` block on every path that reaches the `try`. -/
def deploy_bicep_template (denv : DeployEnv)
    (resource_group resource_name _location _sql_admin_user _sql_admin_password : String) :
    List Event × Option (List (String × Option Json)) :=
  let t0 := print_events ["🚀 Deploying infrastructure using Bicep..."]
  let bicep_file := denv.scriptDir ++ "/main.bicep"
  if denv.bicepExists = false then
    (t0 ++ print_events ["❌ Bicep template not found at: " ++ bicep_file], none)
  else
    let validate_command := "az bicep build --file " ++ quoted bicep_file
      ++ " --outdir " ++ quoted denv.scriptDir
    let vr := run_command_opt validate_command true denv.validate
    let t1 := t0 ++ print_events ["   Validating Bicep template..."] ++ vr.1
    if vr.2 = none ∨ str_contains (pyLower (vr.2.getD "")) "error" = true then
      (t1 ++ print_events (["   ❌ Bicep validation failed:"]
        ++ (if vr.2.getD "" ≠ "" then [vr.2.getD ""] else [])), none)
    else
      let t2 := t1 ++ print_events ["   ✅ Bicep template is valid"]
        ++ [Event.write denv.paramFilePath]
      let deployment_name := resource_name ++ "-deployment"
      let command := "az deployment group create --resource-group " ++ resource_group
        ++ " --name " ++ deployment_name ++ " --template-file " ++ quoted bicep_file
        ++ " --parameters " ++ quoted denv.paramFilePath
      let dr := run_command_opt command false denv.deployRun
      let t3 := t2 ++ print_events ["   Deployment name: " ++ deployment_name,
        "   This may take several minutes...", "   Deployment progress:"] ++ dr.1
      let status_command := "az deployment group show --resource-group " ++ resource_group
        ++ " --name " ++ deployment_name ++ " --query "
        ++ quoted "properties.provisioningState" ++ " -o json"
      let sr := run_command_opt status_command true denv.statusRun
      let t4 := t3 ++ sr.1
      let fin := [Event.unlink denv.paramFilePath]
      if sr.2.getD "" ≠ "" then
        let status := provisioning_state denv.jsonLoads (sr.2.getD "")
        let t5 := t4 ++ print_events ["   Deployment status: " ++ status]
        if status = "Succeeded" then
          let output_command := "az deployment group show --resource-group "
            ++ resource_group ++ " --name " ++ deployment_name ++ " --query "
            ++ quoted "properties.outputs" ++ " -o json"
          let outr := run_command_opt output_command true denv.outputsRun
          let t6 := t5 ++ outr.1
          if outr.2.getD "" ≠ "" then
            match denv.jsonLoads (outr.2.getD "") with
            | none =>
              (t6 ++ print_events ["❌ Could not parse deployment outputs.",
                "Output result: " ++ outr.2.getD ""] ++ fin, none)
            | some (Json.obj fields) =>
              match extract_output_values fields with
              | some output_values =>
                (t6 ++ print_events ["✅ Infrastructure deployed successfully."] ++ fin,
                  some output_values)
              | none =>
                (t6 ++ print_events
                  ["❌ Error deploying Bicep template: an output value is not an object"]
                  ++ fin, none)
            | some _ =>
              (t6 ++ print_events
                ["❌ Error deploying Bicep template: outputs are not an object"]
                ++ fin, none)
          else
            (t6 ++ print_events ["❌ Could not retrieve deployment outputs."] ++ fin, none)
        else
          let error_command := "az deployment group show --resource-group "
            ++ resource_group ++ " --name " ++ deployment_name ++ " --query "
            ++ quoted "properties.error" ++ " -o json"
          let er := run_command_opt error_command true denv.errorRun
          (t5 ++ print_events ["❌ Bicep deployment failed with status: " ++ status]
            ++ er.1 ++ print_events (error_detail_msgs denv.jsonLoads (er.2.getD ""))
            ++ fin, none)
      else
        let list_command := "az deployment group list --resource-group " ++ resource_group
          ++ " --query " ++ quoted ("[?name==" ++ apos ++ deployment_name ++ apos ++ "]")
          ++ " -o json"
        let lr := run_command_opt list_command true denv.listRun
        (t4 ++ print_events ["❌ Could not check deployment status."] ++ lr.1
          ++ print_events (if lr.2.getD "" ≠ "" then ["Deployment found: " ++ lr.2.getD ""]
            else []) ++ fin, none)

/-- `initialize_database` (lines 325-456).  The SQL script and the admin
password are written to temporary files; the `az sql db execute` call uses
`check=False`.  The inner `finally` unlinks the password file and the outer
`finally` unlinks the SQL script file — on every path, including the failure
branch that tells the operator the script was "saved" for manual execution. -/
def initialize_database (server_name database_name admin_user _admin_password : String)
    (sql_file pwd_file : String) (sqlRes : CmdResult) : List Event :=
  let command := "az sql db execute --name " ++ database_name ++ " --server "
    ++ server_name ++ " --admin-user " ++ admin_user
    ++ " --admin-password $(cat " ++ pwd_file ++ ") --file " ++ sql_file
  let r := run_command_opt command true sqlRes
  print_events ["   Creating schema and loading seed data..."]
    ++ [Event.write sql_file]
    ++ print_events ["   Creating database tables..."]
    ++ [Event.write pwd_file]
    ++ print_events ["   Executing SQL script..."]
    ++ r.1
    ++ (if r.2 ≠ none then
        print_events ["   ✅ Database schema created successfully",
          "   Seeding tables with sample data...",
          "   ✅ Database initialized successfully with schema and seed data."]
      else
        print_events
          ["   ⚠️  Note: Database schema and seed data initialization may need to be done manually.",
          "   SQL script saved to: " ++ sql_file,
          "   You can execute it using Azure Data Studio or SQL Server Management Studio."])
    ++ [Event.unlink pwd_file]
    ++ [Event.unlink sql_file]

/-- The human-readable report written by `save_deployment_info` (lines
150-181), with every interpolated deployment-output value already rendered by
Python `str()` (so a missing output appears as the text `None`). -/
def txt_report (resource_group location resource_name admin_user admin_password
    iso connection_string appName appKey appConn stName srvName srvFqdn dbName : String) :
    String :=
  sep60 ++ "\n"
    ++ "Azure Infrastructure Deployment Information\n"
    ++ sep60 ++ "\n"
    ++ "Timestamp: " ++ iso ++ "\n"
    ++ "Resource Group: " ++ resource_group ++ "\n"
    ++ "Location: " ++ location ++ "\n"
    ++ "Resource Prefix: " ++ resource_name ++ "\n"
    ++ "\n" ++ sep60 ++ "\n"
    ++ "Application Insights\n"
    ++ sep60 ++ "\n"
    ++ "Name: " ++ appName ++ "\n"
    ++ "Instrumentation Key: " ++ appKey ++ "\n"
    ++ "Connection String: " ++ appConn ++ "\n"
    ++ "\n" ++ sep60 ++ "\n"
    ++ "Storage Account\n"
    ++ sep60 ++ "\n"
    ++ "Name: " ++ stName ++ "\n"
    ++ "\n" ++ sep60 ++ "\n"
    ++ "SQL Server\n"
    ++ sep60 ++ "\n"
    ++ "Server Name: " ++ srvName ++ "\n"
    ++ "Server FQDN: " ++ srvFqdn ++ "\n"
    ++ "Admin Username: " ++ admin_user ++ "\n"
    ++ "Admin Password: " ++ admin_password ++ "\n"
    ++ "Database Name: " ++ dbName ++ "\n"
    ++ "\nConnection String:\n" ++ connection_string ++ "\n"
    ++ "\n" ++ sep60 ++ "\n"
    ++ "⚠️  IMPORTANT: Keep this file secure and do not commit to source control!\n"
    ++ sep60 ++ "\n"

/-- What `save_deployment_info` produces: its event trace plus the contents it
writes — the JSON document (`info`), the text report (`txt`) and the derived
connection string. -/
structure SaveResult where
  events : List Event
  info : Json
  txt : String
  connection_string : String

/-- `save_deployment_info` (lines 103-185).  Every deployment-output field is
read with `.get`, so missing keys become `None`: JSON `null` in the dumped
document and the text `None` in the report and the connection string. -/
def save_deployment_info (resource_group location resource_name admin_user admin_password : String)
    (deployment_outputs : List (String × Option Json)) (timestamp iso : String) : SaveResult :=
  let base := "deployment_info_" ++ resource_name ++ "_" ++ timestamp
  let connection_string := get_connection_string
    (py_str_opt (dget deployment_outputs "sqlServerName"))
    (py_str_opt (dget deployment_outputs "sqlDatabaseName"))
    admin_user admin_password
  let info := Json.obj [
    ("timestamp", Json.str iso),
    ("resourceGroup", Json.str resource_group),
    ("location", Json.str location),
    ("resourcePrefix", Json.str resource_name),
    ("resources", Json.obj [
      ("applicationInsights", Json.obj [
        ("name", jopt (dget deployment_outputs "appInsightsName")),
        ("instrumentationKey", jopt (dget deployment_outputs "appInsightsInstrumentationKey")),
        ("connectionString", jopt (dget deployment_outputs "appInsightsConnectionString"))]),
      ("storageAccount", Json.obj [
        ("name", jopt (dget deployment_outputs "storageAccountName"))]),
      ("sqlServer", Json.obj [
        ("name", jopt (dget deployment_outputs "sqlServerName")),
        ("fqdn", jopt (dget deployment_outputs "sqlServerFqdn")),
        ("adminUsername", Json.str admin_user),
        ("adminPassword", Json.str admin_password),
        ("databaseName", jopt (dget deployment_outputs "sqlDatabaseName")),
        ("connectionString", Json.str connection_string)])])]
  let txt := txt_report resource_group location resource_name admin_user admin_password
    iso connection_string
    (py_str_opt (dget deployment_outputs "appInsightsName"))
    (py_str_opt (dget deployment_outputs "appInsightsInstrumentationKey"))
    (py_str_opt (dget deployment_outputs "appInsightsConnectionString"))
    (py_str_opt (dget deployment_outputs "storageAccountName"))
    (py_str_opt (dget deployment_outputs "sqlServerName"))
    (py_str_opt (dget deployment_outputs "sqlServerFqdn"))
    (py_str_opt (dget deployment_outputs "sqlDatabaseName"))
  { events := [Event.write (base ++ ".json"),
      Event.print ("💾 Deployment info saved to: " ++ base ++ ".json"),
      Event.write (base ++ ".txt"),
      Event.print ("💾 Deployment info saved to: " ++ base ++ ".txt")],
    info := info, txt := txt, connection_string := connection_string }

/-- Python truthiness of `deployment_outputs` at line 548: falsy when `None`
or an empty mapping. -/
def outputs_falsy : Option (List (String × Option Json)) → Bool
  | none => true
  | some l => l.isEmpty

/-- The outside world of one run of `main`: the outcome of every command it
can issue, the operator's replies, the `json.loads` oracle, the generated
password (when the operator leaves the prompt blank), the temp-file paths and
the two `datetime.now()` readings. -/
structure Env where
  azVersion : CmdResult
  azLogin : CmdResult
  azAccountSub : CmdResult
  jsonLoads : String → Option Json
  subResponse : String
  resourceNameReply : String
  locationReply : String
  adminUserReply : String
  passwordReply : String
  generatedPassword : String
  finalConfirm : String
  groupCreate : CmdResult
  deploy : DeployEnv
  curlIp : CmdResult
  firewallRule : CmdResult
  sqlFilePath : String
  pwdFilePath : String
  sqlExec : CmdResult
  timestamp : String
  isoTimestamp : String

/-- The script's `main` (lines 464-621) — named `main_run` here only because
Lean reserves `main` for executables.  `Except.error c` is `sys.exit(c)`;
falling off the end is a normal exit (`Except.ok ()`). -/
def main_run (env : Env) : List Event × Except Nat Unit :=
  let acc0 := print_events [sep60, "Azure Infrastructure Deployment Script", sep60]
  let v := run_command_opt "az --version" true env.azVersion
  let acc1 := acc0 ++ v.1
  if v.2 = none then
    (acc1 ++ print_events ["❌ Azure CLI is not installed. Please install it first.",
      "   Visit: https://docs.microsoft.com/en-us/cli/azure/install-azure-cli"]
      ++ [Event.exited 1], Except.error 1)
  else
  let lg := check_az_login env.azLogin
  let acc2 := acc1 ++ lg.1
  if lg.2 = false then
    (acc2 ++ print_events ["❌ You are not logged in to Azure CLI.",
      "   Please run: az login"] ++ [Event.exited 1], Except.error 1)
  else
  match get_current_subscription env.jsonLoads env.azAccountSub with
  | (t, Except.error c) => (acc2 ++ t, Except.error c)
  | (t, Except.ok subscription) =>
  let acc3 := acc2 ++ t
  if subscription.truthy = false then
    (acc3 ++ print_events ["❌ Could not retrieve current subscription."]
      ++ [Event.exited 1], Except.error 1)
  else
  let cs := confirm_subscription subscription env.subResponse
  let acc4 := acc3 ++ cs.1
  if cs.2 = false then
    (acc4 ++ print_events ["❌ Deployment cancelled. Please switch to the desired subscription using:",
      "   az account set --subscription <subscription-id>"] ++ [Event.exited 0], Except.error 0)
  else
  let acc5 := acc4 ++ print_events [sep60, "Resource Configuration", sep60]
  let resource_name := get_user_input env.resourceNameReply "brk445-zava"
  let location := get_user_input env.locationReply "eastus2"
  let resource_group := resource_name ++ "-rg"
  let acc6 := acc5 ++ print_events [sep60, "SQL Server Credentials", sep60]
  let admin_user := get_user_input env.adminUserReply "sqladmin"
  let entered := pyStrip env.passwordReply
  let rest := fun (admin_password : String) (acc : List Event) =>
    let acc := acc ++ print_events [sep60, "Deployment Summary", sep60,
      "Resource Group: " ++ resource_group,
      "Location: " ++ location,
      "Resource Prefix: " ++ resource_name,
      "SQL Admin User: " ++ admin_user,
      "SQL Admin Password: " ++ admin_password, sep60]
    if affirmative env.finalConfirm = false then
      (acc ++ print_events ["❌ Deployment cancelled."] ++ [Event.exited 0], Except.error 0)
    else
    let acc := acc ++ print_events [sep60, "Starting Deployment...", sep60]
    match create_resource_group env.groupCreate resource_group location with
    | (t5, Except.error c) => (acc ++ t5, Except.error c)
    | (t5, Except.ok created) =>
    let acc := acc ++ t5
    if created = false then
      (acc ++ print_events ["❌ Failed to create resource group."]
        ++ [Event.exited 1], Except.error 1)
    else
    let dep := deploy_bicep_template env.deploy resource_group resource_name location
      admin_user admin_password
    let acc := acc ++ dep.1
    if outputs_falsy dep.2 = true then
      (acc ++ print_events ["❌ Failed to deploy infrastructure."]
        ++ [Event.exited 1], Except.error 1)
    else
    let outs := dep.2.getD []
    let ip := run_command_opt "curl -s https://api.ipify.org" true env.curlIp
    let cip := ip.2.getD ""
    let acc := acc ++ print_events ["� Configuring SQL Server firewall...",
      "   Detecting your client IP address..."] ++ ip.1
    let acc := acc ++
      (if cip ≠ "" ∧ pyStrip cip ≠ "" then
        let sql_server_name := py_str_opt (dget outs "sqlServerName")
        let fw := run_command_opt ("az sql server firewall-rule create --resource-group "
          ++ resource_group ++ " --server " ++ sql_server_name
          ++ " --name AllowClientIP --start-ip-address " ++ cip
          ++ " --end-ip-address " ++ cip) true env.firewallRule
        print_events ["   Your client IP: " ++ cip, "   Adding firewall rule..."]
          ++ fw.1 ++ print_events ["   ✅ Client IP " ++ cip ++ " added to firewall."]
      else
        print_events ["   ⚠️  Could not detect client IP. You may need to add firewall rules manually."])
    let database_name := py_str_opt (dget outs "sqlDatabaseName")
    let sql_server_name := py_str_opt (dget outs "sqlServerName")
    let acc := acc ++ print_events ["📄 Initializing SQL database...",
      "   Database server: " ++ sql_server_name,
      "   Database name: " ++ database_name]
    let acc := acc ++ initialize_database sql_server_name database_name admin_user
      admin_password env.sqlFilePath env.pwdFilePath env.sqlExec
    let sres := save_deployment_info resource_group location resource_name admin_user
      admin_password outs env.timestamp env.isoTimestamp
    let acc := acc ++ print_events ["💾 Saving deployment information..."] ++ sres.events
    let connection_string := get_connection_string sql_server_name database_name
      admin_user admin_password
    let acc := acc ++ print_events [sep60, "🎉 Deployment Complete!", sep60,
      "Resource Group: " ++ resource_group,
      "Location: " ++ location,
      "Application Insights:",
      "  Name: " ++ py_str_opt (dget outs "appInsightsName"),
      "  Instrumentation Key: " ++ py_str_opt (dget outs "appInsightsInstrumentationKey"),
      "Storage Account:",
      "  Name: " ++ py_str_opt (dget outs "storageAccountName"),
      "SQL Server:",
      "  Server: " ++ py_str_opt (dget outs "sqlServerFqdn"),
      "  Database: " ++ database_name,
      "  Admin User: " ++ admin_user,
      "  Admin Password: " ++ admin_password,
      "📝 Connection String:",
      connection_string,
      "⚠️  IMPORTANT: Deployment details saved to files in current directory!",
      "   - JSON file for programmatic access",
      "   - TXT file for human-readable reference",
      "   Keep these files secure and do not commit to source control!",
      sep60]
    (acc, Except.ok ())
  if entered = "" then
    rest env.generatedPassword (acc6
      ++ print_events ["✅ Generated secure password: " ++ env.generatedPassword,
        "   (This will be saved to output files)"])
  else
  if entered.length < 8 then
    (acc6 ++ print_events ["❌ Password must be at least 8 characters long."]
      ++ [Event.exited 1], Except.error 1)
  else
    rest entered acc6

/-- Lookup of a nested field path in a JSON document. -/
def jfield : Json → List String → Option Json
  | j, [] => some j
  | j, k :: ks =>
    match j.get k with
    | some v => jfield v ks
    | none => none

/-- A concrete random stream whose first draws hit a lowercase letter, an
uppercase letter, a digit and a punctuation character of the alphabet. -/
def wpick : Nat → Nat := fun i => [0, 26, 52, 62].getD i 0

/-- A concrete subscription object, as `az account show` would report it. -/
def sub_json : Json :=
  Json.obj [("name", Json.str "Contoso"), ("id", Json.str "0000"),
    ("tenantId", Json.str "1111")]

/-- A concrete `json.loads` oracle for the account query. -/
def base_jl : String → Option Json :=
  fun s => if s = "SUB" then some sub_json else none

/-- A deployment world whose status query reports `"Failed"`. -/
def denv_failed : DeployEnv :=
  { scriptDir := "/repo/infra", bicepExists := true,
    paramFilePath := "/tmp/params.json",
    jsonLoads := fun s => if s = quoted "Failed" then some (Json.str "Failed") else none,
    validate := { exitCode := 0, stdout := "ok", stderr := "" },
    deployRun := { exitCode := 1, stdout := "", stderr := "deployment failed" },
    statusRun := { exitCode := 0, stdout := quoted "Failed", stderr := "" },
    outputsRun := { exitCode := 0, stdout := "", stderr := "" },
    errorRun := { exitCode := 0, stdout := "null", stderr := "" },
    listRun := { exitCode := 0, stdout := "", stderr := "" } }

/-- A deployment world where `az bicep build` fails with empty stdout and the
error on stderr — the realistic failed-validation case — and every later step
succeeds.  With `check=False` forwarded to `subprocess.run`, the validation
result is the empty string, not `None`. -/
def denv_empty_validation : DeployEnv :=
  { scriptDir := "/repo/infra", bicepExists := true,
    paramFilePath := "/tmp/params.json",
    jsonLoads := fun s =>
      if s = quoted "Succeeded" then some (Json.str "Succeeded")
      else if s = "OUT" then
        some (Json.obj [("sqlServerName", Json.obj [("value", Json.str "srv")])])
      else none,
    validate := { exitCode := 1, stdout := "", stderr := "Error: invalid bicep" },
    deployRun := { exitCode := 0, stdout := "", stderr := "" },
    statusRun := { exitCode := 0, stdout := quoted "Succeeded", stderr := "" },
    outputsRun := { exitCode := 0, stdout := "OUT", stderr := "" },
    errorRun := { exitCode := 0, stdout := "null", stderr := "" },
    listRun := { exitCode := 0, stdout := "", stderr := "" } }

/-- A deployment world whose `az bicep build` output mentions `Error`. -/
def denv_error_validation : DeployEnv :=
  { denv_empty_validation with
    validate := { exitCode := 0, stdout := "Error BCP018: syntax", stderr := "" } }

/-- A concrete outside world for one run of `main`: tool present, logged in,
parseable subscription, all-default replies. -/
def base_env : Env :=
  { azVersion := { exitCode := 0, stdout := "azure-cli 2.60.0", stderr := "" },
    azLogin := { exitCode := 0, stdout := "SUB", stderr := "" },
    azAccountSub := { exitCode := 0, stdout := "SUB", stderr := "" },
    jsonLoads := base_jl,
    subResponse := "yes",
    resourceNameReply := "",
    locationReply := "",
    adminUserReply := "",
    passwordReply := "",
    generatedPassword := "Xy7!abcdefgh",
    finalConfirm := "yes",
    groupCreate := { exitCode := 0, stdout := "ok", stderr := "" },
    deploy := denv_failed,
    curlIp := { exitCode := 0, stdout := "1.2.3.4", stderr := "" },
    firewallRule := { exitCode := 0, stdout := "", stderr := "" },
    sqlFilePath := "/tmp/init.sql",
    pwdFilePath := "/tmp/pwd.txt",
    sqlExec := { exitCode := 0, stdout := "", stderr := "" },
    timestamp := "20261012_000000",
    isoTimestamp := "2026-10-12T00:00:00" }

/-- The world of `base_env` with the operator declining at the subscription
prompt. -/
def env_decline : Env := { base_env with subResponse := "no" }

/-- The world of `base_env` with a manually entered 6-character password. -/
def env_shortpw : Env := { base_env with passwordReply := "short6" }

/-- The world of `base_env` whose deployment reports status `"Failed"`. -/
def env_failed_deploy : Env := base_env

/-! Helper lemmas: agreement of `run_command_opt` with `run_command`, trace
bookkeeping, and string-prefix facts used to recognise command classes. -/

/-- A `check=False` call never raises: `run_command` agrees with
`run_command_opt` there. -/
theorem run_command_opt_spec (command : String) (capture_output : Bool) (res : CmdResult) :
    run_command command capture_output false res
      = ((run_command_opt command capture_output res).1,
        Except.ok (run_command_opt command capture_output res).2) := by
  simp [run_command, run_command_opt]

/-- `run_command` with `check=True` on a zero exit returns the stripped
stdout. -/
theorem run_command_check_ok (command : String) (capture_output : Bool) (res : CmdResult)
    (h : res.exitCode = 0) :
    run_command command capture_output true res
      = (Event.cmd command :: echo_events capture_output res,
        Except.ok (some (pyStrip res.stdout))) := by
  simp [run_command, h]

@[simp] theorem cmds_nil : cmds [] = [] := rfl

@[simp] theorem cmds_append (a b : List Event) : cmds (a ++ b) = cmds a ++ cmds b :=
  List.filterMap_append a b _

@[simp] theorem cmds_cons_cmd (c : String) (t : List Event) :
    cmds (Event.cmd c :: t) = c :: cmds t := rfl

@[simp] theorem cmds_cons_print (s : String) (t : List Event) :
    cmds (Event.print s :: t) = cmds t := rfl

@[simp] theorem cmds_cons_write (p : String) (t : List Event) :
    cmds (Event.write p :: t) = cmds t := rfl

@[simp] theorem cmds_cons_unlink (p : String) (t : List Event) :
    cmds (Event.unlink p :: t) = cmds t := rfl

@[simp] theorem cmds_cons_exited (c : Nat) (t : List Event) :
    cmds (Event.exited c :: t) = cmds t := rfl

@[simp] theorem cmds_print_events (msgs : List String) : cmds (print_events msgs) = [] := by
  induction msgs with
  | nil => rfl
  | cons m ms ih => simp [print_events, cmds] at ih ⊢

@[simp] theorem cmds_echo_events (capture_output : Bool) (res : CmdResult) :
    cmds (echo_events capture_output res) = [] := by
  unfold echo_events
  split <;> [rfl; split <;> split <;> rfl]

@[simp] theorem cmds_error_events (command : String) (res : CmdResult) :
    cmds (error_events command res) = [] := by
  unfold error_events
  split <;> split <;> rfl

/-- `String.data` distributes over append. -/
theorem string_data_append (s t : String) : (s ++ t).data = s.data ++ t.data := rfl

/-- A prefix test shorter than the left part of an append is decided by the
left part alone. -/
theorem pfx_append (p a b : List Char) (h : p.length ≤ a.length) :
    pfx p (a ++ b) = pfx p a := by
  induction p generalizing a with
  | nil => simp [pfx]
  | cons x xs ih =>
    cases a with
    | nil => simp at h
    | cons y ys =>
      simp only [List.cons_append, pfx, List.append_eq]
      rw [ih ys (by simpa using h)]

/-- Every list is a `pfx` of itself extended on the right. -/
theorem pfx_self_append (a b : List Char) : pfx a (a ++ b) = true := by
  induction a with
  | nil => rfl
  | cons x xs ih => simp [pfx, ih]

/-- A command built from a constant head that does not start with `p` does not
start with `p`, whatever operator-controlled suffix follows. -/
theorem str_starts_append_false (x y p : String)
    (h1 : p.data.length ≤ x.data.length) (h2 : str_starts x p = false) :
    str_starts (x ++ y) p = false := by
  unfold str_starts at h2 ⊢
  rw [string_data_append, pfx_append p.data x.data y.data h1]
  exact h2

/-- A string extended on the right never equals a string it does not start
with (used to separate symbolic print payloads from fixed ones). -/
theorem ne_of_not_starts (p y z : String) (h : str_starts z p = false) : p ++ y ≠ z := by
  intro he
  rw [← he] at h
  unfold str_starts at h
  rw [string_data_append, pfx_self_append] at h
  exact absurd h (by simp)

/-- `check_az_login` always reports `true`: with `check=False`,
`run_command` always returns the stripped stdout, never `None`. -/
theorem check_az_login_spec (res : CmdResult) :
    check_az_login res = ([Event.cmd "az account show"], true) := by
  simp [check_az_login, run_command_opt, echo_events]

/-- `get_current_subscription` under a successful, parseable account query. -/
theorem get_current_subscription_spec (jl : String → Option Json) (res : CmdResult)
    (j : Json) (h1 : res.exitCode = 0) (h2 : pyStrip res.stdout ≠ "")
    (h3 : jl (pyStrip res.stdout) = some j) :
    get_current_subscription jl res = ([Event.cmd "az account show"], Except.ok j) := by
  simp [get_current_subscription, run_command_check_ok _ _ _ h1, echo_events, h2, h3]

/-- `create_resource_group` under a successful `az group create` with
non-empty output. -/
theorem create_resource_group_spec (res : CmdResult) (resource_group location : String)
    (h1 : res.exitCode = 0) (h2 : pyStrip res.stdout ≠ "") :
    create_resource_group res resource_group location
      = (print_events ["📦 Creating resource group " ++ resource_group
          ++ " in " ++ location ++ "..."]
        ++ [Event.cmd ("az group create --name " ++ resource_group
          ++ " --location " ++ location)]
        ++ print_events ["✅ Resource group " ++ resource_group
          ++ " created successfully."], Except.ok true) := by
  simp [create_resource_group, run_command_check_ok _ _ _ h1, echo_events, h2]

/-- Every character the candidate generator can emit is in the alphabet (the
`getD` default `CHR(97)` is itself in the alphabet). -/
theorem password_alphabet_getD_mem (n : Nat) :
    password_alphabet.getD n 'a' ∈ password_alphabet := by
  by_cases h : n < password_alphabet.length
  · rw [List.getD_eq_getElem _ _ h]
    exact List.getElem_mem _
  · rw [List.getD_eq_default _ _ (Nat.le_of_not_lt h)]
    decide

/-- Whatever `gen_aux` returns is a complexity-checked candidate: it has the
requested length, draws only from the alphabet, and passed
`meets_complexity`. -/
theorem gen_aux_spec (pick : Nat → Nat) (length : Nat) :
    ∀ fuel start cs, gen_aux pick length start fuel = some cs →
      cs.length = length ∧ (∀ c ∈ cs, c ∈ password_alphabet)
        ∧ meets_complexity cs = true := by
  intro fuel
  induction fuel with
  | zero => intro start cs h; simp [gen_aux] at h
  | succ n ih =>
    intro start cs h
    unfold gen_aux at h
    by_cases hm : meets_complexity (candidate pick start length) = true
    · rw [if_pos hm] at h
      obtain rfl : candidate pick start length = cs := by simpa using h
      refine ⟨by simp [candidate], ?_, hm⟩
      intro c hc
      simp only [candidate, List.mem_map, List.mem_range] at hc
      obtain ⟨i, _, rfl⟩ := hc
      exact password_alphabet_getD_mem _
    · rw [if_neg hm] at h
      exact ih (start + length) cs h

/-- `deploy_bicep_template` on the path where validation passes but the
provisioning state is not `"Succeeded"`: it returns `none` after issuing
exactly the validation, deployment, status-query and error-query commands. -/
theorem deploy_bicep_template_not_succeeded (denv : DeployEnv) (rg rn loc u p : String)
    (hb : denv.bicepExists = true)
    (hv : str_contains (pyLower (pyStrip denv.validate.stdout)) "error" = false)
    (hs1 : pyStrip denv.statusRun.stdout ≠ "")
    (hs2 : provisioning_state denv.jsonLoads (pyStrip denv.statusRun.stdout) ≠ "Succeeded") :
    (deploy_bicep_template denv rg rn loc u p).2 = none ∧
    cmds (deploy_bicep_template denv rg rn loc u p).1 =
      ["az bicep build --file " ++ quoted (denv.scriptDir ++ "/main.bicep")
        ++ " --outdir " ++ quoted denv.scriptDir,
      "az deployment group create --resource-group " ++ rg ++ " --name "
        ++ (rn ++ "-deployment") ++ " --template-file "
        ++ quoted (denv.scriptDir ++ "/main.bicep")
        ++ " --parameters " ++ quoted denv.paramFilePath,
      "az deployment group show --resource-group " ++ rg ++ " --name "
        ++ (rn ++ "-deployment") ++ " --query "
        ++ quoted "properties.provisioningState" ++ " -o json",
      "az deployment group show --resource-group " ++ rg ++ " --name "
        ++ (rn ++ "-deployment") ++ " --query "
        ++ quoted "properties.error" ++ " -o json"] := by
  simp [deploy_bicep_template, run_command_opt, hb, hv, hs1, hs2]


/-! Claim theorems. -/

/-- C1.  Because `run_command` forwards `check` to `subprocess.run`, a call
with `check=False` NEVER returns `None` — on a non-zero exit it still returns
the stripped stdout (first conjunct, for every result, hence in particular for
failing ones), which contradicts the claimed `None` contract.  The second half
of the claim does hold: with `check=True` a non-zero exit prints the captured
error/output diagnostics and terminates the process with status 1 (second
conjunct, evaluated at a failing command). -/
theorem C1_run_command_error_paths :
    (∀ (command : String) (capture_output : Bool) (res : CmdResult),
      run_command command capture_output false res
        = (Event.cmd command :: echo_events capture_output res,
          Except.ok (some (pyStrip res.stdout)))) ∧
    run_command "az group create --name g --location l" true true
        ⟨1, "partial output", "quota exceeded"⟩
      = (Event.cmd "az group create --name g --location l"
          :: error_events "az group create --name g --location l"
            ⟨1, "partial output", "quota exceeded"⟩
          ++ [Event.exited 1], Except.error 1) := by
  constructor
  · intro command capture_output res
    simp [run_command]
  · simp [run_command]

/-- C2.  `check_az_login` cannot detect a missing session: it calls
`run_command` with `check=False`, which always returns the stripped stdout and
never `None`, so the flag is `true` for every command outcome — in particular
for a failed `az account show` (second conjunct).  The claimed behaviour
("returns False exactly when the account-info command fails, and main then
exits with status 1") is therefore unreachable. -/
theorem C2_check_az_login_always_true :
    (∀ res : CmdResult, (check_az_login res).2 = true) ∧
    (check_az_login ⟨1, "", "Please run az login to setup account."⟩).2 = true := by
  constructor
  · intro res
    simp [check_az_login, run_command_opt]
  · simp [check_az_login, run_command_opt]

/-- C6.  `get_connection_string` on the documented inputs produces exactly the
documented string, and for all inputs it follows the fixed template. -/
theorem C6_connection_string_template :
    get_connection_string "srv" "db" "sqladmin" "P@ss1234"
      = "Server=tcp:srv.database.windows.net,1433;Initial Catalog=db;Persist Security Info=False;User ID=sqladmin;Password=P@ss1234;MultipleActiveResultSets=False;Encrypt=True;TrustServerCertificate=False;Connection Timeout=30;" ∧
    ∀ (s d u p : String), get_connection_string s d u p
      = "Server=tcp:" ++ s ++ ".database.windows.net,1433;Initial Catalog=" ++ d
        ++ ";Persist Security Info=False;User ID=" ++ u ++ ";Password=" ++ p
        ++ ";MultipleActiveResultSets=False;Encrypt=True;TrustServerCertificate=False;Connection Timeout=30;" := by
  exact ⟨rfl, fun s d u p => rfl⟩

/-- C4.  The SQL script temp file is NEVER left on disk: the outer `finally`
unlinks it on every path (first conjunct), so the claimed
leave-on-disk-for-manual-execution behaviour cannot happen.  Moreover the
failure branch itself is unreachable — the `check=False` execution result is
never `None`, so the non-fatal warning (and its "SQL script saved to" notice)
is never printed (third and fourth conjuncts) and the success report is
printed on every outcome (fifth conjunct).  The password temp file is indeed
always deleted (second conjunct). -/
theorem C4_sql_script_never_left_on_disk (server_name database_name admin_user
    admin_password sql_file pwd_file : String) (sqlRes : CmdResult) :
    Event.unlink sql_file ∈ initialize_database server_name database_name admin_user
      admin_password sql_file pwd_file sqlRes ∧
    Event.unlink pwd_file ∈ initialize_database server_name database_name admin_user
      admin_password sql_file pwd_file sqlRes ∧
    Event.print "   ⚠️  Note: Database schema and seed data initialization may need to be done manually."
      ∉ initialize_database server_name database_name admin_user
        admin_password sql_file pwd_file sqlRes ∧
    Event.print ("   SQL script saved to: " ++ sql_file)
      ∉ initialize_database server_name database_name admin_user
        admin_password sql_file pwd_file sqlRes ∧
    Event.print "   ✅ Database schema created successfully"
      ∈ initialize_database server_name database_name admin_user
        admin_password sql_file pwd_file sqlRes := by
  refine ⟨?_, ?_, ?_, ?_, ?_⟩ <;>
    simp [initialize_database, run_command_opt, echo_events, print_events]
  exact ⟨ne_of_not_starts _ _ _ (by decide), ne_of_not_starts _ _ _ (by decide),
    ne_of_not_starts _ _ _ (by decide), ne_of_not_starts _ _ _ (by decide),
    ne_of_not_starts _ _ _ (by decide), ne_of_not_starts _ _ _ (by decide)⟩

/-- C7.  Whenever `generate_secure_password` returns a password, it has the
requested length, every character is drawn from letters, digits and the fixed
punctuation set, and it contains at least one lowercase letter, one uppercase
letter, one digit and one punctuation character. -/
theorem C7_generated_password_properties (pick : Nat → Nat) (length fuel : Nat)
    (pw : String) (h : generate_secure_password pick length fuel = some pw) :
    pw.length = length ∧ (∀ c ∈ pw.data, c ∈ password_alphabet) ∧
    (∃ c ∈ pw.data, c.isLower = true) ∧ (∃ c ∈ pw.data, c.isUpper = true) ∧
    (∃ c ∈ pw.data, c.isDigit = true) ∧
    (∃ c ∈ pw.data, c ∈ special_chars.data) := by
  unfold generate_secure_password at h
  obtain ⟨cs, hcs, rfl⟩ : ∃ cs, gen_aux pick length 0 fuel = some cs ∧ String.mk cs = pw := by
    cases hg : gen_aux pick length 0 fuel with
    | none => rw [hg] at h; simp at h
    | some cs =>
      rw [hg] at h
      exact ⟨cs, rfl, by simpa using h⟩
  obtain ⟨hlen, hmem, hcplx⟩ := gen_aux_spec pick length fuel 0 cs hcs
  unfold meets_complexity at hcplx
  simp only [Bool.and_eq_true, List.any_eq_true] at hcplx
  obtain ⟨⟨⟨hl, hu⟩, hd⟩, hs⟩ := hcplx
  refine ⟨?_, ?_, ?_, ?_, ?_, ?_⟩
  · simpa [String.length] using hlen
  · simpa using hmem
  · simpa using hl
  · simpa using hu
  · simpa using hd
  · simpa using hs

/-- C7 witness: a run of the generator that returns, at requested length 4,
with the four properties holding of the returned password. -/
theorem C7_witness :
    ("aA0!" : String).length = 4 ∧ (∀ c ∈ ("aA0!" : String).data, c ∈ password_alphabet) ∧
    (∃ c ∈ ("aA0!" : String).data, c.isLower = true) ∧
    (∃ c ∈ ("aA0!" : String).data, c.isUpper = true) ∧
    (∃ c ∈ ("aA0!" : String).data, c.isDigit = true) ∧
    (∃ c ∈ ("aA0!" : String).data, c ∈ special_chars.data) :=
  C7_generated_password_properties wpick 4 1 "aA0!" (by decide)

/-- C3 counterexample.  An empty validation output does NOT abort the
deployment: the code tests `validate_result is None or "error" in
validate_result.lower()`, not emptiness — and with `check=False` the result is
never `None`.  Concretely, in a world where `az bicep build` fails with empty
stdout (its complaint goes to stderr), the function sails past validation and
returns the deployment outputs instead of `None`. -/
theorem C3_counterexample :
    denv_empty_validation.validate.stdout = "" ∧
    (deploy_bicep_template denv_empty_validation "zava-rg" "zava" "eastus2"
        "sqladmin" "Passw0rd!").2
      = some [("sqlServerName", some (Json.str "srv"))] :=
  ⟨rfl, rfl⟩

/-- C3 amended.  The validation gate aborts with no outputs exactly when the
validation output contains `"error"` case-insensitively (the `is None` half of
the source's test is unreachable because `check=False` never yields `None`,
and an empty output does not abort); on that abort only the validation command
has been issued, and no resource-group deletion command is ever issued. -/
theorem C3_validation_error_aborts (denv : DeployEnv) (rg rn loc u p : String)
    (hb : denv.bicepExists = true)
    (hv : str_contains (pyLower (pyStrip denv.validate.stdout)) "error" = true) :
    (deploy_bicep_template denv rg rn loc u p).2 = none ∧
    cmds (deploy_bicep_template denv rg rn loc u p).1
      = ["az bicep build --file " ++ quoted (denv.scriptDir ++ "/main.bicep")
          ++ " --outdir " ++ quoted denv.scriptDir] ∧
    ∀ c ∈ cmds (deploy_bicep_template denv rg rn loc u p).1,
      str_starts c "az group delete" = false := by
  have key : (deploy_bicep_template denv rg rn loc u p).2 = none ∧
      cmds (deploy_bicep_template denv rg rn loc u p).1
        = ["az bicep build --file " ++ quoted (denv.scriptDir ++ "/main.bicep")
            ++ " --outdir " ++ quoted denv.scriptDir] := by
    simp [deploy_bicep_template, run_command_opt, hb, hv]
  refine ⟨key.1, key.2, ?_⟩
  rw [key.2]
  intro c hc
  simp only [List.mem_singleton] at hc
  subst hc
  rfl

/-- C3 witness: a world whose `az bicep build` output mentions an error, where
the amended abort behaviour is exhibited. -/
theorem C3_witness :
    (deploy_bicep_template denv_error_validation "zava-rg" "zava" "eastus2"
        "sqladmin" "Passw0rd!").2 = none ∧
    cmds (deploy_bicep_template denv_error_validation "zava-rg" "zava" "eastus2"
        "sqladmin" "Passw0rd!").1
      = ["az bicep build --file "
          ++ quoted (denv_error_validation.scriptDir ++ "/main.bicep")
          ++ " --outdir " ++ quoted denv_error_validation.scriptDir] ∧
    ∀ c ∈ cmds (deploy_bicep_template denv_error_validation "zava-rg" "zava" "eastus2"
        "sqladmin" "Passw0rd!").1,
      str_starts c "az group delete" = false :=
  C3_validation_error_aborts denv_error_validation "zava-rg" "zava" "eastus2"
    "sqladmin" "Passw0rd!" (by decide) (by decide)

/-- C8.  On any run that reaches the subscription-confirmation prompt, a
non-affirmative reply there — or, after an affirmative one and an acceptable
password step, a non-affirmative reply at the final deployment prompt — makes
the process exit with status 0, with only the three preflight read-only
commands ever issued and in particular no resource-group creation command. -/
theorem C8_cancellation_exits_zero (env : Env) (j : Json)
    (h1 : env.azAccountSub.exitCode = 0)
    (h2 : pyStrip env.azAccountSub.stdout ≠ "")
    (h3 : env.jsonLoads (pyStrip env.azAccountSub.stdout) = some j)
    (h4 : j.truthy = true)
    (h5 : affirmative env.subResponse = false ∨
      (affirmative env.subResponse = true ∧
        (pyStrip env.passwordReply = "" ∨ 8 ≤ (pyStrip env.passwordReply).length) ∧
        affirmative env.finalConfirm = false)) :
    (main_run env).2 = Except.error 0 ∧
    cmds (main_run env).1 = ["az --version", "az account show", "az account show"] ∧
    ∀ c ∈ cmds (main_run env).1, str_starts c "az group create" = false := by
  have key : (main_run env).2 = Except.error 0 ∧
      cmds (main_run env).1 = ["az --version", "az account show", "az account show"] := by
    rcases h5 with h5 | ⟨h5, hp, h6⟩
    · simp [main_run, run_command_opt, check_az_login_spec,
        get_current_subscription_spec env.jsonLoads env.azAccountSub j h1 h2 h3, h4,
        confirm_subscription, h5]
    · rcases hp with hp | hp
      · simp [main_run, run_command_opt, check_az_login_spec,
          get_current_subscription_spec env.jsonLoads env.azAccountSub j h1 h2 h3, h4,
          confirm_subscription, h5, hp, h6]
      · have hne : pyStrip env.passwordReply ≠ "" := by
          intro he
          rw [he] at hp
          simp at hp
        have hlt : ¬ (pyStrip env.passwordReply).length < 8 := by omega
        simp [main_run, run_command_opt, check_az_login_spec,
          get_current_subscription_spec env.jsonLoads env.azAccountSub j h1 h2 h3, h4,
          confirm_subscription, h5, hne, hlt, h6]
  refine ⟨key.1, key.2, ?_⟩
  rw [key.2]
  decide

/-- C8 witness: the concrete world in which the operator answers `no` at the
subscription prompt. -/
theorem C8_witness :
    (main_run env_decline).2 = Except.error 0 ∧
    cmds (main_run env_decline).1 = ["az --version", "az account show", "az account show"] ∧
    ∀ c ∈ cmds (main_run env_decline).1, str_starts c "az group create" = false :=
  C8_cancellation_exits_zero env_decline sub_json (by decide) (by decide) (by rfl)
    (by decide) (Or.inl (by decide))

/-- C9.  On any run that reaches the password prompt, a manually entered
password whose stripped length is below 8 makes the process exit with status 1
before any further CLI invocation: the only commands ever issued are the three
read-only preflight ones, and no resource-group creation command is run. -/
theorem C9_short_password_rejected (env : Env) (j : Json)
    (h1 : env.azAccountSub.exitCode = 0)
    (h2 : pyStrip env.azAccountSub.stdout ≠ "")
    (h3 : env.jsonLoads (pyStrip env.azAccountSub.stdout) = some j)
    (h4 : j.truthy = true)
    (h5 : affirmative env.subResponse = true)
    (h6 : pyStrip env.passwordReply ≠ "")
    (h7 : (pyStrip env.passwordReply).length < 8) :
    (main_run env).2 = Except.error 1 ∧
    cmds (main_run env).1 = ["az --version", "az account show", "az account show"] ∧
    ∀ c ∈ cmds (main_run env).1, str_starts c "az group create" = false := by
  have key : (main_run env).2 = Except.error 1 ∧
      cmds (main_run env).1 = ["az --version", "az account show", "az account show"] := by
    simp [main_run, run_command_opt, check_az_login_spec,
      get_current_subscription_spec env.jsonLoads env.azAccountSub j h1 h2 h3, h4,
      confirm_subscription, h5, h6, h7]
  refine ⟨key.1, key.2, ?_⟩
  rw [key.2]
  decide

/-- C9 witness: the concrete world with the 6-character manual password. -/
theorem C9_witness :
    (main_run env_shortpw).2 = Except.error 1 ∧
    cmds (main_run env_shortpw).1 = ["az --version", "az account show", "az account show"] ∧
    ∀ c ∈ cmds (main_run env_shortpw).1, str_starts c "az group create" = false :=
  C9_short_password_rejected env_shortpw sub_json (by decide) (by decide) (by rfl)
    (by decide) (by decide) (by decide) (by decide)

/-- C5.  When the queried provisioning state is anything other than
`"Succeeded"` (on a run that reaches deployment), `deploy_bicep_template`
returns no output mapping (first conjunct, for any arguments), `main` exits
with status 1 (second conjunct), and no firewall-configuration or
database-initialization command — nothing starting with `az sql` or `curl` —
is ever issued (third conjunct). -/
theorem C5_failed_deployment_aborts (env : Env) (j : Json)
    (h1 : env.azAccountSub.exitCode = 0)
    (h2 : pyStrip env.azAccountSub.stdout ≠ "")
    (h3 : env.jsonLoads (pyStrip env.azAccountSub.stdout) = some j)
    (h4 : j.truthy = true)
    (h5 : affirmative env.subResponse = true)
    (hp : pyStrip env.passwordReply = "")
    (h6 : affirmative env.finalConfirm = true)
    (hg1 : env.groupCreate.exitCode = 0)
    (hg2 : pyStrip env.groupCreate.stdout ≠ "")
    (hb : env.deploy.bicepExists = true)
    (hv : str_contains (pyLower (pyStrip env.deploy.validate.stdout)) "error" = false)
    (hs1 : pyStrip env.deploy.statusRun.stdout ≠ "")
    (hs2 : provisioning_state env.deploy.jsonLoads (pyStrip env.deploy.statusRun.stdout)
      ≠ "Succeeded") :
    (∀ rg rn loc u p, (deploy_bicep_template env.deploy rg rn loc u p).2 = none) ∧
    (main_run env).2 = Except.error 1 ∧
    ∀ c ∈ cmds (main_run env).1,
      str_starts c "az sql" = false ∧ str_starts c "curl" = false := by
  have hdep := fun a b c d e =>
    deploy_bicep_template_not_succeeded env.deploy a b c d e hb hv hs1 hs2
  have hcrg := fun a b => create_resource_group_spec env.groupCreate a b hg1 hg2
  refine ⟨fun a b c d e => (hdep a b c d e).1, ?_, ?_⟩
  · simp [main_run, run_command_opt, check_az_login_spec,
      get_current_subscription_spec env.jsonLoads env.azAccountSub j h1 h2 h3, h4,
      confirm_subscription, h5, hp, h6, hcrg, hdep, outputs_falsy]
  · intro c hc
    simp [main_run, run_command_opt, check_az_login_spec,
      get_current_subscription_spec env.jsonLoads env.azAccountSub j h1 h2 h3, h4,
      confirm_subscription, h5, hp, h6, hcrg, hdep, outputs_falsy] at hc
    rcases hc with rfl | rfl | rfl | rfl | rfl | rfl | rfl | rfl
    all_goals exact ⟨rfl, rfl⟩

/-- C5 witness: the concrete world whose status query reports `"Failed"`. -/
theorem C5_witness :
    (∀ rg rn loc u p,
      (deploy_bicep_template env_failed_deploy.deploy rg rn loc u p).2 = none) ∧
    (main_run env_failed_deploy).2 = Except.error 1 ∧
    ∀ c ∈ cmds (main_run env_failed_deploy).1,
      str_starts c "az sql" = false ∧ str_starts c "curl" = false :=
  C5_failed_deployment_aborts env_failed_deploy sub_json (by decide) (by decide)
    (by rfl) (by decide) (by decide) (by decide) (by decide) (by decide) (by decide)
    (by decide) (by decide) (by decide) (by decide)

set_option maxRecDepth 4000 in
/-- C10.  `save_deployment_info` completes on any outputs mapping: it writes
both files (first conjunct — the event trace is the same for every mapping),
records a missing SQL-server name as JSON `null` in the dumped document
(second conjunct), and still builds the connection string and the text report
from the `str()`-rendered `None` placeholders (third and fourth conjuncts). -/
theorem C10_missing_outputs_degrade_gracefully (rg loc name u pw ts iso : String)
    (outputs : List (String × Option Json))
    (h1 : dget outputs "sqlServerName" = none)
    (h2 : dget outputs "sqlDatabaseName" = none) :
    (save_deployment_info rg loc name u pw outputs ts iso).events
      = [Event.write ("deployment_info_" ++ name ++ "_" ++ ts ++ ".json"),
        Event.print ("💾 Deployment info saved to: "
          ++ ("deployment_info_" ++ name ++ "_" ++ ts ++ ".json")),
        Event.write ("deployment_info_" ++ name ++ "_" ++ ts ++ ".txt"),
        Event.print ("💾 Deployment info saved to: "
          ++ ("deployment_info_" ++ name ++ "_" ++ ts ++ ".txt"))] ∧
    jfield (save_deployment_info rg loc name u pw outputs ts iso).info
      ["resources", "sqlServer", "name"] = some Json.null ∧
    (save_deployment_info rg loc name u pw outputs ts iso).connection_string
      = get_connection_string "None" "None" u pw ∧
    (save_deployment_info rg loc name u pw outputs ts iso).txt
      = txt_report rg loc name u pw iso (get_connection_string "None" "None" u pw)
        (py_str_opt (dget outputs "appInsightsName"))
        (py_str_opt (dget outputs "appInsightsInstrumentationKey"))
        (py_str_opt (dget outputs "appInsightsConnectionString"))
        (py_str_opt (dget outputs "storageAccountName"))
        "None"
        (py_str_opt (dget outputs "sqlServerFqdn"))
        "None" := by
  refine ⟨rfl, ?_, ?_, ?_⟩ <;>
    simp [save_deployment_info, jfield, Json.get, jopt, List.lookup, h1, h2, py_str_opt]

set_option maxRecDepth 4000 in
/-- C10 witness: the empty outputs mapping (every expected key missing). -/
theorem C10_witness :
    (save_deployment_info "g-rg" "eastus2" "g" "sqladmin" "Pw12345!" [] "T" "I").events
      = [Event.write ("deployment_info_" ++ "g" ++ "_" ++ "T" ++ ".json"),
        Event.print ("💾 Deployment info saved to: "
          ++ ("deployment_info_" ++ "g" ++ "_" ++ "T" ++ ".json")),
        Event.write ("deployment_info_" ++ "g" ++ "_" ++ "T" ++ ".txt"),
        Event.print ("💾 Deployment info saved to: "
          ++ ("deployment_info_" ++ "g" ++ "_" ++ "T" ++ ".txt"))] ∧
    jfield (save_deployment_info "g-rg" "eastus2" "g" "sqladmin" "Pw12345!" [] "T" "I").info
      ["resources", "sqlServer", "name"] = some Json.null ∧
    (save_deployment_info "g-rg" "eastus2" "g" "sqladmin" "Pw12345!" [] "T" "I").connection_string
      = get_connection_string "None" "None" "sqladmin" "Pw12345!" ∧
    (save_deployment_info "g-rg" "eastus2" "g" "sqladmin" "Pw12345!" [] "T" "I").txt
      = txt_report "g-rg" "eastus2" "g" "sqladmin" "Pw12345!" "I"
        (get_connection_string "None" "None" "sqladmin" "Pw12345!")
        (py_str_opt (dget [] "appInsightsName"))
        (py_str_opt (dget [] "appInsightsInstrumentationKey"))
        (py_str_opt (dget [] "appInsightsConnectionString"))
        (py_str_opt (dget [] "storageAccountName"))
        "None"
        (py_str_opt (dget [] "sqlServerFqdn"))
        "None" :=
  C10_missing_outputs_degrade_gracefully "g-rg" "eastus2" "g" "sqladmin" "Pw12345!"
    "T" "I" [] rfl rfl
